import Mathlib

/-!
Shallow embedding of `src/main.py` (a sales-research agent pipeline built on
the Google ADK) and proofs about its specified behaviour.

Modelling conventions:
* Python timestamps (`time.time()`) are modelled as `Nat`; only their
  presence/absence and differences matter to the claims.
* The shared session state (`callback_context.state`, the "blackboard") is an
  association list with insert-at-front semantics, so `stateGet` sees the most
  recent write, like a Python dict.
* Environment variables are strings, with `""` standing for both "unset" and
  "set to the empty string" (both are falsy under Python's `if not v:` tests
  used by the source).
* Effects of `main` (prints, file writes, log calls, toolset close calls) are
  recorded in an effect list; exceptions are an `Except String` result.
-/

namespace SalesResearch

/-- A value stored in the shared session state: either a timestamp written by
the metrics hooks or a text blackboard value written by an agent. -/
inductive Val where
  | num (t : Nat)
  | text (s : String)
deriving DecidableEq, Repr

/-- The shared session state (`callback_context.state`): string-keyed map,
modelled as an association list where the most recent write is at the front. -/
abbrev SessionState := List (String × Val)

/-- Lookup `state[key]` (`state.get(key)` in the source): first match wins. -/
def stateGet : SessionState → String → Option Val
  | [], _ => none
  | (k', v) :: rest, k => if k' = k then some v else stateGet rest k

/-- Write `state[key] = v`: a write shadows previous bindings of the same key. -/
def stateSet (st : SessionState) (k : String) (v : Val) : SessionState :=
  (k, v) :: st

/-- Python truthiness of a looked-up state value (`if start_time:` /
`if data:`): `None`, `0` and `""` are falsy. -/
def isTruthy : Option Val → Bool
  | none => false
  | some (.num t) => decide (t ≠ 0)
  | some (.text s) => decide (s ≠ "")

/-- The `callback_context` fields used by the hooks in `src/main.py`. -/
structure CallbackContext where
  agent_name : String
  invocation_id : String
deriving DecidableEq, Repr

/-- The metrics key `f"metrics:start_time:{invocation_id}:{agent_name}"`
built by `on_agent_start` / `on_agent_end` (src/main.py lines 57 and 67). -/
def startTimeKey (invocation_id agent_name : String) : String :=
  "metrics:start_time:" ++ invocation_id ++ ":" ++ agent_name

/-- Hook `on_agent_start` (src/main.py lines 54-60): stores the current time under
the metrics key and logs a STARTED line.  Returns the updated state and the
log lines produced. -/
def on_agent_start (ctx : CallbackContext) (now : Nat) (st : SessionState) :
    SessionState × List String :=
  let start_time_key := startTimeKey ctx.invocation_id ctx.agent_name
  (stateSet st start_time_key (.num now),
   ["STARTED Agent: " ++ ctx.agent_name])

/-- The `output_map` literal of `on_agent_end` (src/main.py lines 78-85). -/
def output_map : List (String × String) :=
  [("NewsResearcher", "news_data"),
   ("CompetitorResearcher", "competitor_data"),
   ("MetricsResearcher", "metrics_data"),
   ("TechStackResearcher", "techstack_data"),
   ("LeadResearcher", "lead_data"),
   ("PositioningStrategist", "positioning_strategy")]

/-- Python `str(data)` for a state value. -/
def valStr : Val → String
  | .num t => toString t
  | .text s => s

/-- Hook `on_agent_end` (src/main.py lines 62-98): reads (but does not delete) the
start timestamp with `state.get`, computes a duration message, logs a FINISHED
line, and prints the intermediate output of agents listed in `output_map`.
Returns the (unchanged) state and the log/print lines produced. -/
def on_agent_end (ctx : CallbackContext) (now : Nat) (st : SessionState) :
    SessionState × List String :=
  let start_time_key := startTimeKey ctx.invocation_id ctx.agent_name
  let start_time := stateGet st start_time_key
  let duration_msg :=
    if isTruthy start_time then
      match start_time with
      | some (.num t) => "(" ++ toString (now - t) ++ "s)"
      | _ => ""
    else ""
  let finish_line := ["FINISHED Agent: " ++ ctx.agent_name ++ " " ++ duration_msg]
  let intermediate :=
    match List.lookup ctx.agent_name output_map with
    | some state_key =>
      let data := stateGet st state_key
      if isTruthy data then
        match data with
        | some v => ["INTERMEDIATE OUTPUT: " ++ ctx.agent_name, (valStr v).trim]
        | none => []
      else []
    | none => []
  (st, finish_line ++ intermediate)

/-! ## Exa MCP toolset construction (src/main.py lines 180-196) -/

/-- A created MCP toolset, identified by the connection URL it was built
with (`MCPToolset(connection_params=StreamableHTTPServerParams(url=...))`). -/
structure MCPToolset where
  url : String
deriving DecidableEq, Repr

/-- One hex digit, lowercase (as produced by Python's `json.dumps` for
`\uXXXX` escapes). -/
def hexDigitLower (n : Nat) : Char :=
  if n < 10 then Char.ofNat (48 + n) else Char.ofNat (97 + (n - 10))

/-- One hex digit, uppercase (as produced by `urllib.parse.quote`). -/
def hexDigitUpper (n : Nat) : Char :=
  if n < 10 then Char.ofNat (48 + n) else Char.ofNat (65 + (n - 10))

/-- Escaping by `json.dumps` of a single character inside a JSON string
(default `ensure_ascii=True`). -/
def jsonEscapeChar (c : Char) : String :=
  if c = '"' then "\\\""
  else if c = '\\' then "\\\\"
  else if c.toNat < 32 ∨ c.toNat ≥ 128 then
    let n := c.toNat
    String.mk ['\\', 'u', hexDigitLower (n / 4096 % 16), hexDigitLower (n / 256 % 16),
               hexDigitLower (n / 16 % 16), hexDigitLower (n % 16)]
  else String.singleton c

/-- Encoding by `json.dumps` of a list of strings: `["a", "b"]` with `", "` separator. -/
def json_dumps (l : List String) : String :=
  "[" ++
    String.intercalate ", "
      (l.map fun s => "\"" ++ String.join (s.data.map jsonEscapeChar) ++ "\"") ++
  "]"

/-- UTF-8 bytes of a character (as `urllib.parse.quote` encodes its input). -/
def utf8Bytes (c : Char) : List Nat :=
  let n := c.toNat
  if n < 128 then [n]
  else if n < 2048 then [192 + n / 64, 128 + n % 64]
  else if n < 65536 then [224 + n / 4096, 128 + n / 64 % 64, 128 + n % 64]
  else [240 + n / 262144, 128 + n / 4096 % 64, 128 + n / 64 % 64, 128 + n % 64]

/-- Characters `urllib.parse.quote` leaves unescaped with its default
`safe='/'`: ASCII alphanumerics, `_.-~` and `/`. -/
def isUrlSafe (c : Char) : Bool :=
  c.isAlphanum || c = '_' || c = '.' || c = '-' || c = '~' || c = '/'

/-- Percent-encoding `%XX` of one byte, uppercase hex. -/
def percentByte (b : Nat) : String :=
  String.mk ['%', hexDigitUpper (b / 16), hexDigitUpper (b % 16)]

/-- Python `urllib.parse.quote(s)` with the default `safe='/'`. -/
def urlQuote (s : String) : String :=
  String.join (s.data.map fun c =>
    if isUrlSafe c then String.singleton c
    else String.join ((utf8Bytes c).map percentByte))

/-- The `enabled_tools` literal (src/main.py line 187). -/
def enabled_tools : List String := ["linkedin_search", "web_search_exa"]

/-- Function `create_exa_toolset` (src/main.py lines 180-196), as a function of the
`EXA_API_KEY` environment value (`""` when unset or empty): returns `none`
when the key is falsy, otherwise the toolset built on the Exa MCP URL. -/
def create_exa_toolset (exa_api_key : String) : Option MCPToolset :=
  if exa_api_key = "" then none
  else
    let encoded_tools := urlQuote (json_dumps enabled_tools)
    let exa_url :=
      "https://mcp.exa.ai/mcp?exaApiKey=" ++ exa_api_key ++
        "&enabledTools=" ++ encoded_tools
    some { url := exa_url }

/-! ## Agent tree (`build_agents`, src/main.py lines 198-273) -/

/-- A tool attached to an `LlmAgent`. -/
inductive Tool where
  | google_search
  | mcp (toolset : MCPToolset)
  | function_tool (fname : String)
deriving DecidableEq, Repr

/-- The agent tree built by `build_agents`: `LlmAgent` leaves with an optional
`output_key` and a tool list, and `SequentialAgent` / `ParallelAgent`
composites with their `sub_agents`. -/
inductive AgentTree where
  | llm (aname : String) (output_key : Option String) (tools : List Tool)
  | sequentialAgent (aname : String) (sub_agents : List AgentTree)
  | parallelAgent (aname : String) (sub_agents : List AgentTree)
deriving Repr

/-- Function `build_agents` (src/main.py lines 198-273): the five parallel research
specialists (the LeadResearcher gets the Exa toolset when present, otherwise
`google_search`), then the PositioningStrategist and the OutreachWriter, in a
root `SequentialAgent`. -/
def build_agents (exa_toolset : Option MCPToolset) : AgentTree :=
  let news_agent := AgentTree.llm "NewsResearcher" (some "news_data") [Tool.google_search]
  let competitor_agent := AgentTree.llm "CompetitorResearcher" (some "competitor_data") [Tool.google_search]
  let metrics_agent := AgentTree.llm "MetricsResearcher" (some "metrics_data") [Tool.google_search]
  let techstack_agent := AgentTree.llm "TechStackResearcher" (some "techstack_data") [Tool.google_search]
  let lead_agent := AgentTree.llm "LeadResearcher" (some "lead_data")
    (match exa_toolset with
     | some t => [Tool.mcp t]
     | none => [Tool.google_search])
  let parallel_research_team := AgentTree.parallelAgent "ParallelResearchTeam"
    [news_agent, competitor_agent, metrics_agent, techstack_agent, lead_agent]
  let positioning_agent := AgentTree.llm "PositioningStrategist" (some "positioning_strategy")
    [Tool.function_tool "load_web_page"]
  let outreach_agent := AgentTree.llm "OutreachWriter" none []
  AgentTree.sequentialAgent "LeadResearchSystem"
    [parallel_research_team, positioning_agent, outreach_agent]

mutual

/-- All `LlmAgent` leaves of a tree, as `(name, output_key, tools)` triples. -/
def llmAgents : AgentTree → List (String × Option String × List Tool)
  | .llm n k ts => [(n, k, ts)]
  | .sequentialAgent _ cs => llmAgentsList cs
  | .parallelAgent _ cs => llmAgentsList cs

/-- Variant of `llmAgents` over a list of trees. -/
def llmAgentsList : List AgentTree → List (String × Option String × List Tool)
  | [] => []
  | c :: cs => llmAgents c ++ llmAgentsList cs

end

mutual

/-- The sibling lists of all `ParallelAgent` nodes of a tree. -/
def parallelGroups : AgentTree → List (List AgentTree)
  | .llm _ _ _ => []
  | .sequentialAgent _ cs => parallelGroupsList cs
  | .parallelAgent _ cs => cs :: parallelGroupsList cs

/-- Variant of `parallelGroups` over a list of trees. -/
def parallelGroupsList : List AgentTree → List (List AgentTree)
  | [] => []
  | c :: cs => parallelGroups c ++ parallelGroupsList cs

end

/-- The `output_key` an agent node declares (`LlmAgent` only; composite
agents declare none). -/
def declaredOutputKey : AgentTree → Option String
  | .llm _ k _ => k
  | _ => none

/-- All declared output keys of a tree. -/
def outputKeys (t : AgentTree) : List String :=
  (llmAgents t).filterMap (fun x => x.2.1)

/-- Modelled from the spec: the tree-build-time structural validation that a
Parallel Group's siblings never declare the same output key ("a structural
invariant checked at tree-build time, not at runtime").  The check itself
lives in the ADK library, which is not part of this repository's sources. -/
def validParallelSiblings (sub_agents : List AgentTree) : Prop :=
  (sub_agents.filterMap declaredOutputKey).Nodup

/-! ## The run driver `main` (src/main.py lines 276-324)

`main` is modelled as a computation in a simple exception+trace monad:
the result is `Except String Unit` (an uncaught Python exception, or normal
return) together with the list of observable effects performed, in order.
The behaviour of the event stream produced by `runner.run_async` is a
parameter: the list of events it yields, and an optional exception that ends
the loop (a stage failure propagated by the runner, a `KeyboardInterrupt`,
or any other early termination of the event loop). -/

/-- Observable effects of a run of `main`. -/
inductive Effect where
  | sessionCreated
  | toolsetOpened (url : String)
  | agentsBuilt
  | printed (s : String)
  | wroteFile (fname content : String)
  | loggedWarning (msg : String)
  | closedToolset
deriving DecidableEq, Repr

/-- The exception+trace monad: result and ordered effect trace. -/
abbrev M (α : Type) := Except String α × List Effect

/-- Return without effects. -/
def mpure {α : Type} (a : α) : M α := (.ok a, [])

/-- Sequencing: effects accumulate; an exception skips the continuation. -/
def mbind {α β : Type} (x : M α) (f : α → M β) : M β :=
  match x with
  | (.ok a, effs) => let r := f a; (r.1, effs ++ r.2)
  | (.error e, effs) => (.error e, effs)

/-- Perform one effect. -/
def emit (e : Effect) : M Unit := (.ok (), [e])

/-- Raise an exception. -/
def mthrow {α : Type} (e : String) : M α := (.error e, [])

/-- Python `try: body finally: fin`: the finaliser always runs after the
body; if the finaliser raises, its exception replaces the body's outcome,
otherwise the body's outcome stands. -/
def tryFinallyM {α : Type} (body : M α) (fin : M Unit) : M α :=
  match fin.1 with
  | .error e => (.error e, body.2 ++ fin.2)
  | .ok _ => (body.1, body.2 ++ fin.2)

/-- Python `try: body except Exception as e: logger.warning("Error during toolset
cleanup: " + e)` (src/main.py lines 321-324): the exception is logged and
swallowed. -/
def tryExceptLogged (body : M Unit) : M Unit :=
  match body.1 with
  | .ok _ => (.ok (), body.2)
  | .error e => (.ok (), body.2 ++ [.loggedWarning ("Error during toolset cleanup: " ++ e)])

/-- Call `await exa_toolset.close()`: the close call happens; whether it then
raises is the parameter `closeRaises`. -/
def toolsetClose (closeRaises : Bool) : M Unit :=
  if closeRaises then (.error "close failed", [.closedToolset])
  else (.ok (), [.closedToolset])

/-- One event yielded by `runner.run_async`: its author, whether it is a
final response, and its content (the text of each part), `none` for a falsy
`event.content`. -/
structure Event where
  author : String
  is_final_response : Bool
  content : Option (List String)
deriving DecidableEq, Repr

/-- The body of the `async for` loop (src/main.py lines 299-316): on a final
response with content, the OutreachWriter's text is printed and written to
`sales_outreach.md`, and the PositioningStrategist triggers a debug print. -/
def handleEvent (event : Event) : M Unit :=
  if event.is_final_response && event.content.isSome then
    match event.content with
    | some parts =>
      if event.author = "OutreachWriter" then
        match parts with
        | [] => mthrow "IndexError"
        | final_text :: _ =>
          mbind (emit (.printed "FINAL OUTREACH DRAFT")) fun _ =>
          mbind (emit (.printed final_text)) fun _ =>
          mbind (emit (.wroteFile "sales_outreach.md" final_text)) fun _ =>
          emit (.printed "Saved outreach draft to: sales_outreach.md")
      else if event.author = "PositioningStrategist" then
        emit (.printed "[DEBUG] Positioning Strategy Generated...")
      else mpure ()
    | none => mpure ()
  else mpure ()

/-- The `async for event in runner.run_async(...)` loop: handle each yielded
event in order; `loopExn` is an exception ending the stream (stage failure,
interrupt, ...), raised after the yielded events. -/
def eventLoop : List Event → Option String → M Unit
  | [], none => mpure ()
  | [], some e => mthrow e
  | ev :: rest, le => mbind (handleEvent ev) fun _ => eventLoop rest le

/-- The environment variables `main` reads; `""` means unset or empty. -/
structure Env where
  googleApiKey : String
  vertexaiFlag : String
  exaApiKey : String

/-- Check `not os.environ.get("GOOGLE_API_KEY") and not
os.environ.get("GOOGLE_GENAI_USE_VERTEXAI")` (src/main.py line 278). -/
def googleCredsMissing (env : Env) : Bool :=
  env.googleApiKey = "" && env.vertexaiFlag = ""

/-- The `finally:` block of `main` (src/main.py lines 317-324): if a toolset
was created, print a notice and close it, logging and swallowing any close
error; otherwise do nothing. -/
def mainFinaliser (exa_toolset : Option MCPToolset) (closeRaises : Bool) : M Unit :=
  match exa_toolset with
  | none => mpure ()
  | some _ =>
    mbind (emit (.printed "Closing Exa toolset connection...")) fun _ =>
    tryExceptLogged (toolsetClose closeRaises)

/-- Function `main` (src/main.py lines 276-324): credential check, then session,
toolset and agent-tree creation, then the event loop guarded by the
`try/finally` that closes the toolset. -/
def mainModel (env : Env) (events : List Event) (loopExn : Option String)
    (closeRaises : Bool) : M Unit :=
  if googleCredsMissing env then
    emit (.printed "Error: GOOGLE_API_KEY not found.")
  else
    mbind (emit .sessionCreated) fun _ =>
    let exa_toolset := create_exa_toolset env.exaApiKey
    mbind (match exa_toolset with
           | some t => emit (.toolsetOpened t.url)
           | none => mpure ()) fun _ =>
    mbind (emit .agentsBuilt) fun _ =>
    mbind (emit (.printed "Starting Sales System (Rep: John Doe)...")) fun _ =>
    tryFinallyM (eventLoop events loopExn) (mainFinaliser exa_toolset closeRaises)

/-- Number of `exa_toolset.close()` calls in an effect trace. -/
def closeCount (effs : List Effect) : Nat :=
  effs.countP (fun e => e = Effect.closedToolset)

/-! ## Spec-modelled Parallel Group execution (for claims about
`ParallelAgent`, whose implementation is in the ADK library, not in this
repository's sources) -/

/-- One child of a Parallel Group together with the terminal outcome its run
would produce: `ok content` or `error failure`. -/
structure ParChild where
  cname : String
  output_key : Option String
  result : Except String String
deriving Repr

/-- On success a child writes its content under its output key; a failed
child writes nothing ("no partial/garbled output key"). -/
def writeOnSuccess (bb : SessionState) (c : ParChild) : SessionState :=
  match c.result, c.output_key with
  | .ok v, some k => stateSet bb k (.text v)
  | _, _ => bb

/-- The failure a child contributes, if any. -/
def childFailure (c : ParChild) : Option String :=
  match c.result with
  | .error e => some e
  | .ok _ => none

/-- Modelled from the spec: Parallel Group execution ("start every child ...
wait for all children to reach a terminal outcome ... no cancellation of
healthy siblings").  Every child runs to its terminal outcome; successful
children write their blackboard keys; failures are collected in start order.
Returns the final blackboard, the collected failures, and the number of
children invoked. -/
def runParallelGroup : List ParChild → SessionState → SessionState × List String × Nat
  | [], bb => (bb, [], 0)
  | c :: rest, bb =>
    let bb1 := writeOnSuccess bb c
    let r := runParallelGroup rest bb1
    (r.1, (childFailure c).toList ++ r.2.1, r.2.2 + 1)

/-- Modelled from the spec: the group's outcome is `Failed` carrying the
first failure encountered in start order, else `Completed`. -/
def parallelOutcome (failures : List String) : Except String Unit :=
  match failures with
  | [] => .ok ()
  | e :: _ => .error e

/-! ## Helper lemmas -/

/-- Length of the metrics key: 19 for the prefix, 1 for the middle colon,
plus the invocation id and agent name. -/
theorem startTimeKey_length (inv ag : String) :
    (startTimeKey inv ag).length = 20 + inv.length + ag.length := by
  have h1 : ("metrics:start_time:" : String).length = 19 := rfl
  have h2 : (":" : String).length = 1 := rfl
  unfold startTimeKey
  rw [String.length_append, String.length_append, String.length_append, h1, h2]
  omega

/-- A metrics key is at least 20 characters long, so it differs from any
shorter string. -/
theorem startTimeKey_ne_short (inv ag : String) (k : String) (hk : k.length < 20) :
    startTimeKey inv ag ≠ k := by
  intro h
  have hl := congrArg String.length h
  rw [startTimeKey_length] at hl
  omega

/-- Counting close calls distributes over trace concatenation. -/
theorem closeCount_append (l1 l2 : List Effect) :
    closeCount (l1 ++ l2) = closeCount l1 + closeCount l2 :=
  List.countP_append _ _ _

/-- Handling one run event never closes the toolset. -/
theorem closeCount_handleEvent (ev : Event) :
    closeCount (handleEvent ev).2 = 0 := by
  unfold handleEvent
  split
  · split
    · split
      · split <;> simp [mbind, emit, mthrow, closeCount]
      · split
        · simp [emit, closeCount]
        · simp [mpure, closeCount]
    · simp [mpure, closeCount]
  · simp [mpure, closeCount]

/-- The event loop never closes the toolset. -/
theorem closeCount_eventLoop (events : List Event) (le : Option String) :
    closeCount (eventLoop events le).2 = 0 := by
  induction events with
  | nil => cases le <;> simp [eventLoop, mpure, mthrow, closeCount]
  | cons ev rest ih =>
    rcases hev : handleEvent ev with ⟨r, effs⟩
    have h1 : closeCount effs = 0 := by
      have h := closeCount_handleEvent ev
      rw [hev] at h
      exact h
    cases r <;> simp [eventLoop, mbind, hev, closeCount_append, h1, ih]

/-- The finaliser of `main` never raises (close errors are swallowed). -/
theorem mainFinaliser_fst (exa : Option MCPToolset) (cr : Bool) :
    (mainFinaliser exa cr).1 = .ok () := by
  cases exa <;> cases cr <;>
    simp [mainFinaliser, mpure, mbind, emit, tryExceptLogged, toolsetClose]

/-- When a toolset exists, the finaliser closes it exactly once, whether or
not the close call raises. -/
theorem closeCount_mainFinaliser_some (t : MCPToolset) (cr : Bool) :
    closeCount (mainFinaliser (some t) cr).2 = 1 := by
  cases cr <;>
    simp [mainFinaliser, mbind, emit, tryExceptLogged, toolsetClose, closeCount,
      List.countP, List.countP.go]

/-- Handling a final OutreachWriter event with a first part prints the text
and writes it to `sales_outreach.md`. -/
theorem handleEvent_outreach (ev : Event) (txt : String) (rest : List String)
    (hf : ev.is_final_response = true) (ha : ev.author = "OutreachWriter")
    (hc : ev.content = some (txt :: rest)) :
    handleEvent ev =
      (.ok (), [.printed "FINAL OUTREACH DRAFT", .printed txt,
                .wroteFile "sales_outreach.md" txt,
                .printed "Saved outreach draft to: sales_outreach.md"]) := by
  simp [handleEvent, hf, ha, hc, mbind, emit]

/-- In a loop run that completes normally, a final OutreachWriter event's
text is printed and written to `sales_outreach.md`. -/
theorem eventLoop_outreach (events : List Event) (le : Option String) (ev : Event)
    (txt : String) (rest : List String) (hev : ev ∈ events)
    (hf : ev.is_final_response = true) (ha : ev.author = "OutreachWriter")
    (hc : ev.content = some (txt :: rest))
    (hok : (eventLoop events le).1 = .ok ()) :
    Effect.printed txt ∈ (eventLoop events le).2 ∧
    Effect.wroteFile "sales_outreach.md" txt ∈ (eventLoop events le).2 := by
  induction events with
  | nil => simp at hev
  | cons e rest' ih =>
    rcases hhe : handleEvent e with ⟨r, effs⟩
    cases r with
    | error err =>
      rw [show eventLoop (e :: rest') le = mbind (handleEvent e) fun _ => eventLoop rest' le from rfl,
        hhe] at hok
      simp [mbind] at hok
    | ok u =>
      have hsh : eventLoop (e :: rest') le =
          ((eventLoop rest' le).1, effs ++ (eventLoop rest' le).2) := by
        rw [show eventLoop (e :: rest') le = mbind (handleEvent e) fun _ => eventLoop rest' le from rfl,
          hhe]
        simp [mbind]
      rw [hsh]
      rw [hsh] at hok
      simp only at hok
      rcases List.mem_cons.mp hev with heq | hmem
      · subst heq
        have hcomp := handleEvent_outreach ev txt rest hf ha hc
        rw [hcomp] at hhe
        injection hhe with h1 h2
        subst h2
        constructor
        · exact List.mem_append_left _ (by simp)
        · exact List.mem_append_left _ (by simp)
      · have := ih hmem hok
        exact ⟨List.mem_append_right _ this.1, List.mem_append_right _ this.2⟩

/-- Every effect of the event loop is an effect of the whole `main` run
(the loop's trace is a contiguous segment of `main`'s trace). -/
theorem mainModel_mem_of_eventLoop (env : Env) (events : List Event)
    (loopExn : Option String) (cr : Bool) (x : Effect)
    (hg : googleCredsMissing env = false)
    (hx : x ∈ (eventLoop events loopExn).2) :
    x ∈ (mainModel env events loopExn cr).2 := by
  cases hexa : create_exa_toolset env.exaApiKey with
  | none =>
    simp only [mainModel, hg, Bool.false_eq_true, if_false, hexa]
    simp [mbind, emit, tryFinallyM, mainFinaliser, mpure, hx]
  | some t =>
    simp only [mainModel, hg, Bool.false_eq_true, if_false, hexa]
    cases cr <;>
      simp [mbind, emit, tryFinallyM, mainFinaliser, tryExceptLogged, toolsetClose, hx]

/-- The modelled Parallel Group invokes every child. -/
theorem runParallelGroup_count (children : List ParChild) (bb : SessionState) :
    (runParallelGroup children bb).2.2 = children.length := by
  induction children generalizing bb with
  | nil => rfl
  | cons c rest ih => simp [runParallelGroup, ih]

/-- The failures the modelled Parallel Group collects are exactly the
children's failures, in start order. -/
theorem runParallelGroup_failures (children : List ParChild) (bb : SessionState) :
    (runParallelGroup children bb).2.1 = children.filterMap childFailure := by
  induction children generalizing bb with
  | nil => rfl
  | cons c rest ih =>
    cases hf : childFailure c <;>
      simp [runParallelGroup, List.filterMap_cons, hf, ih]

/-- A child's write never removes an existing blackboard key. -/
theorem stateGet_writeOnSuccess_isSome (bb : SessionState) (c : ParChild) (k : String)
    (h : (stateGet bb k).isSome) : (stateGet (writeOnSuccess bb c) k).isSome := by
  unfold writeOnSuccess
  split
  · next v k' =>
    simp only [stateSet, stateGet]
    split
    · simp
    · exact h
  · exact h

/-- Running the modelled Parallel Group never removes an existing
blackboard key. -/
theorem runParallelGroup_mono (children : List ParChild) (bb : SessionState) (k : String)
    (h : (stateGet bb k).isSome) :
    (stateGet (runParallelGroup children bb).1 k).isSome := by
  induction children generalizing bb with
  | nil => exact h
  | cons c rest ih =>
    simp only [runParallelGroup]
    exact ih _ (stateGet_writeOnSuccess_isSome bb c k h)

/-- A successful child's output key is present on the final blackboard. -/
theorem runParallelGroup_success_key (children : List ParChild) (bb : SessionState)
    (c : ParChild) (v : String) (k : String) (hc : c ∈ children)
    (hr : c.result = .ok v) (hk : c.output_key = some k) :
    (stateGet (runParallelGroup children bb).1 k).isSome := by
  induction children generalizing bb with
  | nil => simp at hc
  | cons e rest ih =>
    rcases List.mem_cons.mp hc with heq | hmem
    · subst heq
      simp only [runParallelGroup]
      apply runParallelGroup_mono
      simp [writeOnSuccess, hr, hk, stateSet, stateGet]
    · simp only [runParallelGroup]
      exact ih _ hmem

/-! ## Claim theorems -/

/-- C1: in every run of `main` in which the Exa toolset was created (Google
credentials present so the run starts, and a non-empty `EXA_API_KEY`), the
toolset's `close` is invoked exactly once before `main` returns, on every
exit path: any sequence of yielded events, normal completion of the loop
(`loopExn = none`), a propagated failure or early termination of the event
loop (`loopExn = some e`), and whether or not `close` itself raises. -/
theorem main_closes_toolset_exactly_once (env : Env) (events : List Event)
    (loopExn : Option String) (closeRaises : Bool)
    (hg : googleCredsMissing env = false) (he : env.exaApiKey ≠ "") :
    closeCount (mainModel env events loopExn closeRaises).2 = 1 := by
  obtain ⟨t, hexa⟩ : ∃ t, create_exa_toolset env.exaApiKey = some t := by
    simp [create_exa_toolset, he]
  simp only [mainModel, hg, Bool.false_eq_true, if_false, hexa]
  simp only [mbind, emit, tryFinallyM]
  rw [mainFinaliser_fst]
  simp only [closeCount_append]
  rw [closeCount_eventLoop, closeCount_mainFinaliser_some]
  simp [closeCount, List.countP, List.countP.go]

/-- Witness for C1: a concrete run (failing loop, raising close) closes the
toolset exactly once. -/
theorem main_closes_toolset_exactly_once_witness :
    closeCount (mainModel ⟨"g", "", "k"⟩ [] (some "stage failed") true).2 = 1 :=
  main_closes_toolset_exactly_once ⟨"g", "", "k"⟩ [] (some "stage failed") true
    (by decide) (by decide)

/-- C2: with an absent or empty `EXA_API_KEY`, `create_exa_toolset` returns
`none`, the LeadResearcher is built with the default `google_search` tool,
`close` is never invoked, and the run's outcome is exactly the event loop's
outcome (the missing credential introduces no error). -/
theorem missing_exa_key_degrades_gracefully (env : Env) (events : List Event)
    (loopExn : Option String) (cr : Bool)
    (hg : googleCredsMissing env = false) (he : env.exaApiKey = "") :
    create_exa_toolset env.exaApiKey = none ∧
    ("LeadResearcher", some "lead_data", [Tool.google_search])
      ∈ llmAgents (build_agents (create_exa_toolset env.exaApiKey)) ∧
    closeCount (mainModel env events loopExn cr).2 = 0 ∧
    (mainModel env events loopExn cr).1 = (eventLoop events loopExn).1 := by
  have hnone : create_exa_toolset env.exaApiKey = none := by
    simp [create_exa_toolset, he]
  refine ⟨hnone, ?_, ?_, ?_⟩
  · rw [hnone]
    simp [build_agents, llmAgents, llmAgentsList]
  · simp only [mainModel, hg, Bool.false_eq_true, if_false, hnone]
    simp only [mbind, emit, tryFinallyM, mainFinaliser, mpure, List.append_nil]
    simp only [closeCount_append]
    rw [closeCount_eventLoop]
    simp [closeCount, List.countP, List.countP.go]
  · simp only [mainModel, hg, Bool.false_eq_true, if_false, hnone]
    simp [mbind, emit, tryFinallyM, mainFinaliser, mpure]

/-- Witness for C2: a concrete run with Google credentials but no
`EXA_API_KEY`. -/
theorem missing_exa_key_degrades_gracefully_witness :
    create_exa_toolset (Env.mk "g" "" "").exaApiKey = none ∧
    ("LeadResearcher", some "lead_data", [Tool.google_search])
      ∈ llmAgents (build_agents (create_exa_toolset (Env.mk "g" "" "").exaApiKey)) ∧
    closeCount (mainModel ⟨"g", "", ""⟩ [] none false).2 = 0 ∧
    (mainModel ⟨"g", "", ""⟩ [] none false).1 = (eventLoop [] none).1 :=
  missing_exa_key_degrades_gracefully ⟨"g", "", ""⟩ [] none false (by decide) rfl

/-- C3: every Parallel Group of the tree built by `build_agents` (for any
toolset) satisfies the tree-build-time structural validation that no two
siblings declare the same output key (validation modelled from the spec; the
check lives in the ADK library, outside this repository's sources). -/
theorem parallel_siblings_output_keys_distinct (exa : Option MCPToolset)
    (g : List AgentTree) (hg : g ∈ parallelGroups (build_agents exa)) :
    validParallelSiblings g := by
  have hpg : ∃ lead_tools, parallelGroups (build_agents exa) =
      [[AgentTree.llm "NewsResearcher" (some "news_data") [Tool.google_search],
        AgentTree.llm "CompetitorResearcher" (some "competitor_data") [Tool.google_search],
        AgentTree.llm "MetricsResearcher" (some "metrics_data") [Tool.google_search],
        AgentTree.llm "TechStackResearcher" (some "techstack_data") [Tool.google_search],
        AgentTree.llm "LeadResearcher" (some "lead_data") lead_tools]] := by
    cases exa <;> exact ⟨_, rfl⟩
  obtain ⟨lt, hpg⟩ := hpg
  rw [hpg] at hg
  simp only [List.mem_singleton] at hg
  subst hg
  simp [validParallelSiblings, declaredOutputKey]

/-- Witness for C3: the concrete parallel research team (no Exa toolset)
passes the validation. -/
theorem parallel_siblings_output_keys_distinct_witness :
    validParallelSiblings
      [AgentTree.llm "NewsResearcher" (some "news_data") [Tool.google_search],
       AgentTree.llm "CompetitorResearcher" (some "competitor_data") [Tool.google_search],
       AgentTree.llm "MetricsResearcher" (some "metrics_data") [Tool.google_search],
       AgentTree.llm "TechStackResearcher" (some "techstack_data") [Tool.google_search],
       AgentTree.llm "LeadResearcher" (some "lead_data") [Tool.google_search]] :=
  parallel_siblings_output_keys_distinct none _ (List.mem_singleton.mpr rfl)

/-- C4 counterexample: the claim says `on_agent_end` removes the
start-timestamp record so that it is no longer present afterwards; on the
code it is not removed.  Concretely: after `on_agent_start` stores time 5
for invocation `inv1` of `NewsResearcher` and `on_agent_end` runs, the
metrics record is still present (the source only calls `state.get`, never a
delete/pop). -/
theorem on_agent_end_retains_metrics_record :
    stateGet (on_agent_end ⟨"NewsResearcher", "inv1"⟩ 9
        (on_agent_start ⟨"NewsResearcher", "inv1"⟩ 5 []).1).1
      (startTimeKey "inv1" "NewsResearcher") = some (.num 5) := by rfl

/-- C4 amended: `on_agent_end` looks up the start-timestamp record keyed by
(invocation id, stage name) to compute the logged duration, but does not
remove it: the end-hook leaves the session state entirely unchanged, so the
metrics record persists past the hook pair that produced and consumed it. -/
theorem on_agent_end_leaves_state_unchanged (ctx : CallbackContext) (now : Nat)
    (st : SessionState) : (on_agent_end ctx now st).1 = st := rfl

/-- C5 (execution semantics modelled from the spec): in every Parallel Group
run in which one or more children fail, every child is still invoked
(invocation count equals child count), the group's outcome is `Failed`
carrying the first failure in start order, and the output key of every
successful sibling is present on the final blackboard. -/
theorem parallel_group_failure_semantics (children : List ParChild) (bb : SessionState)
    (hfail : ∃ c ∈ children, (childFailure c).isSome) :
    (runParallelGroup children bb).2.2 = children.length ∧
    (∃ e, (children.filterMap childFailure).head? = some e ∧
      parallelOutcome (runParallelGroup children bb).2.1 = .error e) ∧
    (∀ c ∈ children, ∀ v k, c.result = .ok v → c.output_key = some k →
      (stateGet (runParallelGroup children bb).1 k).isSome) := by
  refine ⟨runParallelGroup_count children bb, ?_, ?_⟩
  · have hne : children.filterMap childFailure ≠ [] := by
      obtain ⟨c, hc, hs⟩ := hfail
      intro hemp
      rcases ho : childFailure c with _ | e
      · rw [ho] at hs; simp at hs
      · exact absurd (List.filterMap_eq_nil_iff.mp hemp c hc) (by rw [ho]; simp)
    obtain ⟨e, tl, heq⟩ := List.exists_cons_of_ne_nil hne
    refine ⟨e, by rw [heq]; rfl, ?_⟩
    rw [runParallelGroup_failures, heq]
    rfl
  · intro c hc v k hr hk
    exact runParallelGroup_success_key children bb c v k hc hr hk

/-- Witness for C5: a failing NewsResearcher next to a succeeding
LeadResearcher — both are invoked, the group fails with the first failure,
and `lead_data` is still on the blackboard. -/
theorem parallel_group_failure_semantics_witness :
    (runParallelGroup [⟨"NewsResearcher", some "news_data", .error "boom"⟩,
        ⟨"LeadResearcher", some "lead_data", .ok "profile"⟩] []).2.2 =
      ([⟨"NewsResearcher", some "news_data", .error "boom"⟩,
        ⟨"LeadResearcher", some "lead_data", .ok "profile"⟩] : List ParChild).length ∧
    (∃ e, (([⟨"NewsResearcher", some "news_data", .error "boom"⟩,
        ⟨"LeadResearcher", some "lead_data", .ok "profile"⟩] : List ParChild).filterMap
          childFailure).head? = some e ∧
      parallelOutcome (runParallelGroup [⟨"NewsResearcher", some "news_data", .error "boom"⟩,
        ⟨"LeadResearcher", some "lead_data", .ok "profile"⟩] []).2.1 = .error e) ∧
    (∀ c ∈ ([⟨"NewsResearcher", some "news_data", .error "boom"⟩,
        ⟨"LeadResearcher", some "lead_data", .ok "profile"⟩] : List ParChild),
      ∀ v k, c.result = .ok v → c.output_key = some k →
      (stateGet (runParallelGroup [⟨"NewsResearcher", some "news_data", .error "boom"⟩,
        ⟨"LeadResearcher", some "lead_data", .ok "profile"⟩] []).1 k).isSome) :=
  parallel_group_failure_semantics
    [⟨"NewsResearcher", some "news_data", .error "boom"⟩,
     ⟨"LeadResearcher", some "lead_data", .ok "profile"⟩] []
    ⟨⟨"NewsResearcher", some "news_data", .error "boom"⟩, List.mem_cons_self _ _, rfl⟩

/-- C6: with neither `GOOGLE_API_KEY` nor `GOOGLE_GENAI_USE_VERTEXAI` set,
`main` returns normally after printing only the user-facing error message:
no session is created, no toolset is opened, no agent tree is built, and no
close happens. -/
theorem missing_google_creds_aborts_before_start (env : Env) (events : List Event)
    (loopExn : Option String) (cr : Bool) (hm : googleCredsMissing env = true) :
    (mainModel env events loopExn cr).1 = .ok () ∧
    (mainModel env events loopExn cr).2 = [.printed "Error: GOOGLE_API_KEY not found."] ∧
    Effect.sessionCreated ∉ (mainModel env events loopExn cr).2 ∧
    (∀ url, Effect.toolsetOpened url ∉ (mainModel env events loopExn cr).2) ∧
    Effect.agentsBuilt ∉ (mainModel env events loopExn cr).2 ∧
    closeCount (mainModel env events loopExn cr).2 = 0 := by
  simp [mainModel, hm, emit, closeCount, List.countP, List.countP.go]

/-- Witness for C6: the fully-unset environment. -/
theorem missing_google_creds_aborts_before_start_witness :
    (mainModel ⟨"", "", ""⟩ [] none false).1 = .ok () ∧
    (mainModel ⟨"", "", ""⟩ [] none false).2 = [.printed "Error: GOOGLE_API_KEY not found."] ∧
    Effect.sessionCreated ∉ (mainModel ⟨"", "", ""⟩ [] none false).2 ∧
    (∀ url, Effect.toolsetOpened url ∉ (mainModel ⟨"", "", ""⟩ [] none false).2) ∧
    Effect.agentsBuilt ∉ (mainModel ⟨"", "", ""⟩ [] none false).2 ∧
    closeCount (mainModel ⟨"", "", ""⟩ [] none false).2 = 0 :=
  missing_google_creds_aborts_before_start ⟨"", "", ""⟩ [] none false rfl

/-- C7: when closing the toolset raises during teardown, the error is
logged and swallowed: the run's outcome is exactly the event loop's outcome
(the close failure never replaces or masks it), and a cleanup warning is in
the trace. -/
theorem close_failure_logged_and_swallowed (env : Env) (events : List Event)
    (loopExn : Option String) (hg : googleCredsMissing env = false)
    (he : env.exaApiKey ≠ "") :
    (mainModel env events loopExn true).1 = (eventLoop events loopExn).1 ∧
    Effect.loggedWarning "Error during toolset cleanup: close failed"
      ∈ (mainModel env events loopExn true).2 := by
  obtain ⟨t, hexa⟩ : ∃ t, create_exa_toolset env.exaApiKey = some t := by
    simp [create_exa_toolset, he]
  simp only [mainModel, hg, Bool.false_eq_true, if_false, hexa]
  simp [mbind, emit, tryFinallyM, mainFinaliser, tryExceptLogged, toolsetClose]

/-- Witness for C7: a concrete run whose loop raised, with a raising close. -/
theorem close_failure_logged_and_swallowed_witness :
    (mainModel ⟨"g", "", "k"⟩ [] (some "stage failed") true).1 =
      (eventLoop [] (some "stage failed")).1 ∧
    Effect.loggedWarning "Error during toolset cleanup: close failed"
      ∈ (mainModel ⟨"g", "", "k"⟩ [] (some "stage failed") true).2 :=
  close_failure_logged_and_swallowed ⟨"g", "", "k"⟩ [] (some "stage failed")
    (by decide) (by decide)

/-- C8: in a run that starts (credentials present) and completes normally,
the OutreachWriter's final response text is printed and written to the fixed
path `sales_outreach.md`. -/
theorem final_output_printed_and_saved (env : Env) (events : List Event) (cr : Bool)
    (ev : Event) (txt : String) (rest : List String)
    (hg : googleCredsMissing env = false) (hev : ev ∈ events)
    (hf : ev.is_final_response = true) (ha : ev.author = "OutreachWriter")
    (hc : ev.content = some (txt :: rest))
    (hok : (eventLoop events none).1 = .ok ()) :
    Effect.printed txt ∈ (mainModel env events none cr).2 ∧
    Effect.wroteFile "sales_outreach.md" txt ∈ (mainModel env events none cr).2 := by
  have h := eventLoop_outreach events none ev txt rest hev hf ha hc hok
  exact ⟨mainModel_mem_of_eventLoop env events none cr _ hg h.1,
         mainModel_mem_of_eventLoop env events none cr _ hg h.2⟩

/-- Witness for C8: a run yielding one final OutreachWriter event. -/
theorem final_output_printed_and_saved_witness :
    Effect.printed "draft" ∈
      (mainModel ⟨"g", "", ""⟩ [⟨"OutreachWriter", true, some ["draft"]⟩] none false).2 ∧
    Effect.wroteFile "sales_outreach.md" "draft" ∈
      (mainModel ⟨"g", "", ""⟩ [⟨"OutreachWriter", true, some ["draft"]⟩] none false).2 :=
  final_output_printed_and_saved ⟨"g", "", ""⟩ [⟨"OutreachWriter", true, some ["draft"]⟩]
    false ⟨"OutreachWriter", true, some ["draft"]⟩ "draft" []
    (by decide) (List.mem_singleton.mpr rfl) rfl rfl rfl (by rfl)

/-- C9: for every non-empty `EXA_API_KEY`, the connection URL equals
`"https://mcp.exa.ai/mcp?exaApiKey=" ++ key ++ "&enabledTools=" ++
urlQuote (json_dumps ["linkedin_search", "web_search_exa"])`, and that
URL-escaped JSON-encoded allow-list evaluates to
`%5B%22linkedin_search%22%2C%20%22web_search_exa%22%5D`. -/
theorem exa_url_embeds_key_and_enabled_tools (key : String) (h : key ≠ "") :
    (create_exa_toolset key).map MCPToolset.url =
      some ("https://mcp.exa.ai/mcp?exaApiKey=" ++ key ++ "&enabledTools=" ++
        urlQuote (json_dumps ["linkedin_search", "web_search_exa"])) ∧
    urlQuote (json_dumps ["linkedin_search", "web_search_exa"]) =
      "%5B%22linkedin_search%22%2C%20%22web_search_exa%22%5D" :=
  ⟨by simp [create_exa_toolset, h, enabled_tools], rfl⟩

/-- Witness for C9: the URL for the concrete key `"k"`. -/
theorem exa_url_embeds_key_and_enabled_tools_witness :
    (create_exa_toolset "k").map MCPToolset.url =
      some ("https://mcp.exa.ai/mcp?exaApiKey=" ++ "k" ++ "&enabledTools=" ++
        urlQuote (json_dumps ["linkedin_search", "web_search_exa"])) ∧
    urlQuote (json_dumps ["linkedin_search", "web_search_exa"]) =
      "%5B%22linkedin_search%22%2C%20%22web_search_exa%22%5D" :=
  exa_url_embeds_key_and_enabled_tools "k" (by decide)

/-- C10: `on_agent_start` writes its timestamp into the shared session state
under `"metrics:start_time:" ++ invocation_id ++ ":" ++ agent_name`, and for
every invocation id and agent name this key differs from every output key
declared in the agent tree (whatever the toolset), so instrumentation writes
never overwrite a business blackboard value. -/
theorem metrics_keys_disjoint_from_output_keys (exa : Option MCPToolset)
    (ctx : CallbackContext) (now : Nat) (st : SessionState) :
    (on_agent_start ctx now st).1 =
      stateSet st (startTimeKey ctx.invocation_id ctx.agent_name) (.num now) ∧
    startTimeKey ctx.invocation_id ctx.agent_name ∉ outputKeys (build_agents exa) := by
  refine ⟨rfl, ?_⟩
  have hkeys : outputKeys (build_agents exa) =
      ["news_data", "competitor_data", "metrics_data", "techstack_data",
       "lead_data", "positioning_strategy"] := by
    cases exa <;> simp [build_agents, outputKeys, llmAgents, llmAgentsList]
  rw [hkeys]
  intro hmem
  simp only [List.mem_cons, List.not_mem_nil, or_false] at hmem
  set inv := ctx.invocation_id
  set ag := ctx.agent_name
  rcases hmem with h | h | h | h | h | h
  · exact startTimeKey_ne_short inv ag _ (by decide) h
  · exact startTimeKey_ne_short inv ag _ (by decide) h
  · exact startTimeKey_ne_short inv ag _ (by decide) h
  · exact startTimeKey_ne_short inv ag _ (by decide) h
  · exact startTimeKey_ne_short inv ag _ (by decide) h
  · have hl := congrArg String.length h
    rw [startTimeKey_length] at hl
    have h20 : ("positioning_strategy" : String).length = 20 := rfl
    rw [h20] at hl
    have hinv : inv = "" := by
      apply String.ext
      have h0 : inv.length = 0 := by omega
      simpa [String.length] using List.length_eq_zero.mp h0
    have hag : ag = "" := by
      apply String.ext
      have h0 : ag.length = 0 := by omega
      simpa [String.length] using List.length_eq_zero.mp h0
    rw [hinv, hag] at h
    exact absurd h (by decide)

end SalesResearch
